import Mathlib

/-!
Shallow embedding of the alert-data generator of `src/DataVerse.py`
(class `AlertDataGenerator`), together with theorems settling the
specification's claims about it.

Modelling conventions:
* Randomness: every call into Python's `random` module is modelled by an
  explicit raw draw (a `Nat`), reduced into the required range exactly as
  the primitive's documented behaviour states: `random.randint(a, b)`
  yields an integer in `[a, b]`; `random.choice(seq)` an element of `seq`
  at a uniformly drawn index; `random.choices(items, weights)` an item
  selected through the cumulative weights, a draw in `[0, total)` and a
  right bisection clamped to the last index.
* Time: `datetime.now()` is an explicit per-record input in whole seconds
  (`tsNow : Int`); `timedelta` subtraction is integer arithmetic on
  seconds.  The record field `timestamp` stores the instant itself; the
  `strftime('%Y-%m-%d %H:%M:%S')` rendering is order-isomorphic to the
  instant (lexicographic order on that fixed-width format agrees with
  chronological order for 4-digit years), so ordering claims are stated
  on the instants.
* `severity_score` is `round(random.uniform(lo, hi), 2)`, a real multiple
  of 0.01 inside `[lo, hi]`; it is modelled in hundredths, i.e. as a
  natural number in `[100*lo, 100*hi]`.
* The progress bar and status text of `generate_dataset` are purely
  observational and are omitted.
-/

namespace DataVerse

/-- Abstract error taxonomy of the spec.  `invalidConfiguration` stands for
the exceptions `random.choices` raises on a malformed weight table
(`IndexError` on an empty population, `ValueError` on a non-positive
total); `invalidArgument` stands for the `KeyError` that
`pd.DataFrame([]).sort_values('timestamp')` raises when `num_records ≤ 0`
left the alert list empty. -/
inductive DVError where
  | invalidConfiguration
  | invalidArgument
deriving DecidableEq

/-- The closed set of 8 alert categories (keys of `self.alert_categories`). -/
inductive Category where
  | Performance | Availability | Exception | Database
  | Connectivity | Security | Network | Application
deriving DecidableEq

/-- Priorities P1..P5 (keys of `self.priority_distribution`). -/
inductive Priority where
  | P1 | P2 | P3 | P4 | P5
deriving DecidableEq

/-- Alert status values used at lines 238 and 244 of the source. -/
inductive Status where
  | Open | Acknowledged | Resolved
deriving DecidableEq

/-- Impact levels (line 270 of the source). -/
inductive Impact where
  | High | Medium | Low
deriving DecidableEq

/-- One alert record, mirroring the dict returned by `generate_alert`
(lines 272-284).  `timestamp` is the generated instant in seconds,
`severity_score` is in hundredths. -/
structure AlertRecord where
  alert_id : String
  timestamp : Int
  category : Category
  priority : Priority
  system_source : String
  message : String
  status : Status
  assigned_team : String
  resolution_time_minutes : Option Nat
  severity_score : Nat
  impact : Impact
deriving DecidableEq

/-- `self.alert_categories` (lines 62-71), in dict insertion order. -/
def alert_categories : List (Category × Int) :=
  [(.Performance, 25), (.Availability, 20), (.Exception, 20), (.Database, 15),
   (.Connectivity, 10), (.Security, 5), (.Network, 3), (.Application, 2)]

/-- `self.priority_distribution` (lines 74-80). -/
def priority_distribution : List (Priority × Int) :=
  [(.P1, 10), (.P2, 15), (.P3, 35), (.P4, 30), (.P5, 10)]

/-- `self.systems` (lines 83-88). -/
def systems : List String :=
  ["SAP_ECC_PRD", "SAP_S4HANA_PRD", "HANA_DB_01", "HANA_DB_02",
   "BTP_Tenant_01", "BTP_Tenant_02", "App_SRV_01", "App_SRV_02",
   "Web_Gateway_01", "Integration_Hub", "API_Gateway", "Auth_Service",
   "Payment_Gateway", "Email_Service", "File_Server", "Backup_System"]

/-- `self.alert_messages` (lines 91-188): per-category message pools. -/
def alert_messages : Category → List String
  | .Performance =>
    ["CPU utilization exceeded 90% threshold for 5 minutes",
     "Response time degradation detected - average 3.5s",
     "Memory usage critical - 95% utilized",
     "Disk I/O operations exceeding 1000 IOPS",
     "Thread pool exhaustion warning - 98% threads active",
     "Query execution time exceeded 10 seconds",
     "API response latency above 2000ms",
     "High garbage collection activity detected",
     "Connection pool near capacity - 90% used",
     "Slow transaction processing detected"]
  | .Availability =>
    ["Service unavailable - HTTP 503 errors",
     "Health check failure detected",
     "Database connection lost",
     "Service restart required due to unresponsive state",
     "Scheduled maintenance window started",
     "Failover to secondary system initiated",
     "Service degradation - partial functionality available",
     "Load balancer health check failing",
     "Cluster node unreachable",
     "Service recovery in progress"]
  | .Exception =>
    ["NullPointerException in payment processing module",
     "Unhandled exception in user authentication service",
     "OutOfMemoryError in report generation",
     "Database deadlock detected and resolved",
     "Connection timeout exception - external API",
     "JSON parsing error in data ingestion",
     "File not found exception in batch job",
     "Concurrent modification exception in cache layer",
     "Invalid state exception in workflow engine",
     "Stack overflow error in recursive function"]
  | .Database =>
    ["Database connection pool exhausted",
     "Long-running query detected - 45 seconds",
     "Database backup failed - disk space",
     "Replication lag exceeds 10 minutes",
     "Table lock timeout occurred",
     "Index fragmentation above 30%",
     "Database checkpoint taking longer than expected",
     "Transaction log full - immediate action required",
     "Database mirroring suspended",
     "Slow query alert - full table scan detected"]
  | .Connectivity =>
    ["Network latency spike detected - 500ms",
     "TCP connection reset by peer",
     "DNS resolution failure for external service",
     "VPN tunnel disconnected",
     "Firewall rule blocking legitimate traffic",
     "Network packet loss exceeds 5%",
     "SSL certificate validation failed",
     "Load balancer connection timeout",
     "Network interface card error detected",
     "Bandwidth utilization above 80%"]
  | .Security =>
    ["Multiple failed login attempts detected",
     "Unauthorized access attempt blocked",
     "Security certificate expiring in 7 days",
     "Suspicious API access pattern detected",
     "Privilege escalation attempt logged",
     "Data encryption key rotation required",
     "Firewall rule violation detected",
     "Intrusion detection system alert triggered",
     "SQL injection attempt blocked",
     "Cross-site scripting attempt detected"]
  | .Network =>
    ["Network switch port flapping detected",
     "Router CPU utilization high - 85%",
     "BGP peer session down",
     "Network packet corruption detected",
     "VLAN configuration mismatch",
     "Network device reboot detected",
     "Spanning tree topology change",
     "Network monitoring agent unreachable",
     "SNMP trap received - link down",
     "Network congestion detected on uplink"]
  | .Application =>
    ["Application deployment failed - rollback initiated",
     "Configuration file syntax error detected",
     "Application license expiring in 30 days",
     "Session management error - memory leak suspected",
     "Application cache invalidation failed",
     "Microservice mesh communication failure",
     "Application startup sequence timeout",
     "Feature flag configuration error",
     "Application metrics collection failed",
     "Third-party integration service timeout"]

/-- `self.team_mapping` (lines 191-200). -/
def team_mapping : Category → List String
  | .Performance => ["Infrastructure Team", "Platform Team"]
  | .Availability => ["SRE Team", "Operations Team"]
  | .Exception => ["Development Team", "Application Team"]
  | .Database => ["Database Team", "DBA Team"]
  | .Connectivity => ["Network Team", "Infrastructure Team"]
  | .Security => ["Security Team", "InfoSec Team"]
  | .Network => ["Network Team", "Infrastructure Team"]
  | .Application => ["Application Team", "Development Team"]

/-! ### Python random primitives -/

/-- `random.randint(a, b)`: an integer uniform in the closed range
`[a, b]`, modelled by reducing a raw draw `r` into that range. -/
def randint (a b r : Nat) : Nat := a + r % (b + 1 - a)

/-- `random.choice(seq)`: the element at a uniformly drawn index of a
nonempty sequence. -/
def pychoice {α : Type} (l : List α) (hl : l ≠ []) (r : Nat) : α :=
  l.get ⟨r % l.length, Nat.mod_lt r (List.length_pos.mpr hl)⟩

/-- Running cumulative sums, as `itertools.accumulate(weights)` produces
inside `random.choices`. -/
def cumFrom (acc : Int) : List Int → List Int
  | [] => []
  | w :: ws => (acc + w) :: cumFrom (acc + w) ws

/-- `list(itertools.accumulate(weights))`. -/
def cumWeights (ws : List Int) : List Int := cumFrom 0 ws

/-- Sum of the weights of a weight table. -/
def totalWeight {α : Type} (table : List (α × Int)) : Int :=
  (table.map Prod.snd).sum

/-- `random.choices(list(d.keys()), weights=list(d.values()), k=1)[0]`,
following CPython's implementation: build the cumulative weights, fail if
they are empty (`cum_weights[-1]` raises `IndexError`) or if the total is
non-positive (`ValueError`), then pick the item at
`bisect.bisect(cum_weights, random() * total, 0, n - 1)`.  The real draw
`random() * total` lies in `[0, total)`; with integer cumulative weights
the bisection index only depends on its floor, modelled here as
`r % total`, and for a nondecreasing cumulative list (all weights `≥ 0`,
the situation in every use and every claim that fixes a specific label)
the clamped right bisection is the number of cumulative entries `≤` the
draw, clamped to `n - 1`.  The final `none` branch is unreachable: a
nonempty table makes the index smaller than the length. -/
def pychoices {α : Type} (table : List (α × Int)) (r : Nat) : Except DVError α :=
  let cum := cumWeights (table.map Prod.snd)
  match cum.getLast? with
  | none => .error .invalidConfiguration
  | some total =>
    if total ≤ 0 then .error .invalidConfiguration
    else
      match table.get? (min (cum.countP (fun c => decide (c ≤ (r : Int) % total))) (table.length - 1)) with
      | some p => .ok p.1
      | none => .error .invalidConfiguration

/-! ### Decimal formatting: Python `str` and `str.zfill` -/

/-- The ASCII character of a decimal digit. -/
def digitChar (d : Nat) : Char := Char.ofNat (48 + d)

/-- Little-endian decimal digits of `n`, with explicit structural fuel
(`fuel ≥ n` suffices, since the digit count of `n ≥ 1` is at most `n`). -/
def natDigitsRev : Nat → Nat → List Char
  | 0, _ => []
  | fuel + 1, n => if n = 0 then [] else digitChar (n % 10) :: natDigitsRev fuel (n / 10)

/-- Python `str(n)` for a natural number `n`. -/
def pystr (n : Nat) : String :=
  if n = 0 then "0" else String.mk (natDigitsRev n n).reverse

/-- Python `s.zfill(w)` on an unsigned numeral: left-pad with `'0'` to
width `w` (a no-op when `s` is already at least that long). -/
def zfill (w : Nat) (s : String) : String :=
  String.mk (List.replicate (w - s.data.length) '0' ++ s.data)

/-- The identifier `f"ALT-{str(index + 1).zfill(8)}"` (line 273). -/
def alertId (index : Nat) : String := "ALT-" ++ zfill 8 (pystr (index + 1))

/-- One decoding step of a decimal numeral read left to right. -/
def digitStep (a : Nat) (c : Char) : Nat := a * 10 + (c.toNat - 48)

/-- Decode the numeric part of an `ALT-` identifier (drop the 4-character
prefix, read the remaining digits in base 10; leading zeros are inert). -/
def decodeId (s : String) : Nat := (s.data.drop 4).foldl digitStep 0

/-! ### Per-record generation -/

/-- The raw material one `generate_alert` call takes from the outside
world: one raw draw per `random` call the body makes, in source order,
plus the clock value `datetime.now()` reads at line 210 (in seconds). -/
structure AlertRand where
  categoryDraw : Nat
  priorityDraw : Nat
  systemDraw : Nat
  messageDraw : Nat
  tsNow : Int
  tsDays : Nat
  tsHours : Nat
  tsMinutes : Nat
  tsSeconds : Nat
  statusDraw : Nat
  resolutionDraw : Nat
  teamDraw : Nat
  severityDraw : Nat

/-- `generate_timestamp` (lines 208-223): `datetime.now()` minus a
`timedelta` of `randint(0,30)` days, `randint(0,23)` hours,
`randint(0,59)` minutes and `randint(0,59)` seconds. -/
def generate_timestamp (now : Int) (rd rh rm rs : Nat) : Int :=
  now - Int.ofNat (86400 * randint 0 30 rd + 3600 * randint 0 23 rh
    + 60 * randint 0 59 rm + randint 0 59 rs)

/-- Severity draw `round(random.uniform(lo, hi), 2)` in hundredths: a
value in `[100*lo, 100*hi]` that is an exact multiple of 0.01. -/
def uniform2dp (lo hi : Nat) (r : Nat) : Nat := 100 * lo + r % (100 * (hi - lo) + 1)

/-- `generate_alert` (lines 225-284), with each `random` call fed from the
corresponding field of `r`. -/
def generate_alert (index : Nat) (r : AlertRand) : Except DVError AlertRecord :=
  match pychoices alert_categories r.categoryDraw with
  | .error e => .error e
  | .ok category =>
    match pychoices priority_distribution r.priorityDraw with
    | .error e => .error e
    | .ok priority =>
      let system := pychoice systems (by decide) r.systemDraw
      let message := pychoice (alert_messages category) (by cases category <;> decide) r.messageDraw
      let timestamp := generate_timestamp r.tsNow r.tsDays r.tsHours r.tsMinutes r.tsSeconds
      match pychoices
          (if priority = .P1 ∨ priority = .P2 then
            [(Status.Open, 60), (Status.Acknowledged, 25), (Status.Resolved, 15)]
          else
            [(Status.Open, 30), (Status.Acknowledged, 30), (Status.Resolved, 40)])
          r.statusDraw with
      | .error e => .error e
      | .ok status =>
        let resolution_time : Option Nat :=
          if status = .Resolved then some (randint 5 245 r.resolutionDraw) else none
        let assigned_team := pychoice (team_mapping category) (by cases category <;> decide) r.teamDraw
        let severity_score :=
          if priority = .P1 then uniform2dp 90 100 r.severityDraw
          else if priority = .P2 then uniform2dp 70 89 r.severityDraw
          else if priority = .P3 then uniform2dp 40 69 r.severityDraw
          else if priority = .P4 then uniform2dp 20 39 r.severityDraw
          else uniform2dp 0 19 r.severityDraw
        let impact :=
          if priority = .P1 ∨ priority = .P2 then Impact.High
          else if priority = .P3 then Impact.Medium
          else Impact.Low
        .ok { alert_id := alertId index
              timestamp := timestamp
              category := category
              priority := priority
              system_source := system
              message := message
              status := status
              assigned_team := assigned_team
              resolution_time_minutes := resolution_time
              severity_score := severity_score
              impact := impact }

/-! ### Dataset assembly -/

/-- The loop body of `generate_dataset` (lines 294-295) from index `i`
for `k` more iterations: `alerts.append(self.generate_alert(i))`. -/
def generate_alerts_from (envs : Nat → AlertRand) (i : Nat) : Nat → Except DVError (List AlertRecord)
  | 0 => .ok []
  | k + 1 =>
    match generate_alert i (envs i) with
    | .error e => .error e
    | .ok rec =>
      match generate_alerts_from envs (i + 1) k with
      | .error e => .error e
      | .ok rest => .ok (rec :: rest)

/-- All alerts of one run, in generation order (the `alerts` list right
before the DataFrame conversion at line 307). -/
def generate_alerts (envs : Nat → AlertRand) (n : Nat) : Except DVError (List AlertRecord) :=
  generate_alerts_from envs 0 n

/-- The output ordering `sort_values('timestamp', ascending=False)`
guarantees: each adjacent pair is non-increasing in `timestamp`. -/
def SortedDescTs (l : List AlertRecord) : Prop :=
  l.Pairwise (fun a b => b.timestamp ≤ a.timestamp)

/-- `generate_dataset` (lines 286-310) as a big-step relation.  The loop
produces the alerts in generation order; `pd.DataFrame(alerts)` followed
by `sort_values('timestamp', ascending=False)` raises (`KeyError
'timestamp'`, the spec's `InvalidArgument`) when the list is empty — the
case `num_records ≤ 0` — and otherwise returns some permutation of the
alerts that is sorted by timestamp descending.  The sort is pandas
`sort_values` with the default `kind='quicksort'`, which guarantees a
sorted permutation but not stability, so it is embedded by that contract
rather than by one concrete algorithm.  `num_records` is an integer;
`range(num_records)` iterates `max num_records 0` times, i.e.
`n.toNat`. -/
inductive GenerateDataset (envs : Nat → AlertRand) (n : Int) : Except DVError (List AlertRecord) → Prop where
  | err (e : DVError) (h : generate_alerts envs n.toNat = .error e) :
      GenerateDataset envs n (.error e)
  | emptyFail (h : generate_alerts envs n.toNat = .ok []) :
      GenerateDataset envs n (.error .invalidArgument)
  | sorted (alerts out : List AlertRecord)
      (h : generate_alerts envs n.toNat = .ok alerts) (hne : alerts ≠ [])
      (hperm : alerts.Perm out) (hsort : SortedDescTs out) :
      GenerateDataset envs n (.ok out)

/-! ### Derived pure tables used to state the claims -/

/-- Impact as the pure function of priority that line 270 computes. -/
def impactOf : Priority → Impact
  | .P1 => .High
  | .P2 => .High
  | .P3 => .Medium
  | .P4 => .Low
  | .P5 => .Low

/-- The status weight table keyed by priority (lines 236-248). -/
def statusTableOf (p : Priority) : List (Status × Int) :=
  if p = .P1 ∨ p = .P2 then
    [(Status.Open, 60), (Status.Acknowledged, 25), (Status.Resolved, 15)]
  else
    [(Status.Open, 30), (Status.Acknowledged, 30), (Status.Resolved, 40)]

/-- The severity range (in whole points) keyed by priority (lines 257-267). -/
def severityRange : Priority → Nat × Nat
  | .P1 => (90, 100)
  | .P2 => (70, 89)
  | .P3 => (40, 69)
  | .P4 => (20, 39)
  | .P5 => (0, 19)

/-- "Ties keep generation order": among records with equal timestamps the
record generated earlier (smaller numeric identifier — identifiers encode
the generation index) comes first. -/
def StableTiesById (l : List AlertRecord) : Prop :=
  l.Pairwise (fun a b => a.timestamp = b.timestamp → decodeId a.alert_id ≤ decodeId b.alert_id)

/-- A concrete randomness record: every raw draw 0, clock at 0. -/
def rand0 : AlertRand :=
  { categoryDraw := 0, priorityDraw := 0, systemDraw := 0, messageDraw := 0,
    tsNow := 0, tsDays := 0, tsHours := 0, tsMinutes := 0, tsSeconds := 0,
    statusDraw := 0, resolutionDraw := 0, teamDraw := 0, severityDraw := 0 }

/-- A concrete run environment feeding `rand0` to every record. -/
def env0 : Nat → AlertRand := fun _ => rand0

/-- The record `generate_alert 0 rand0` produces. -/
def rec0 : AlertRecord :=
  { alert_id := "ALT-00000001", timestamp := 0, category := .Performance,
    priority := .P1, system_source := "SAP_ECC_PRD",
    message := "CPU utilization exceeded 90% threshold for 5 minutes",
    status := .Open, assigned_team := "Infrastructure Team",
    resolution_time_minutes := none, severity_score := 9000, impact := .High }

/-- The record `generate_alert 1 rand0` produces (same draws, next index). -/
def rec1 : AlertRecord :=
  { rec0 with alert_id := "ALT-00000002" }

/-- A randomness record drawing the maximal timestamp offset
(30 days, 23 hours, 59 minutes, 59 seconds = 2678399 seconds) with the
clock at 2678399, so that the produced timestamp is exactly 0. -/
def randC6 : AlertRand :=
  { rand0 with tsNow := 2678399, tsDays := 30, tsHours := 23, tsMinutes := 59, tsSeconds := 59 }

/-- A run environment whose every clock read is the same instant 2678399,
i.e. a run granting the claim its run-level reference instant. -/
def envC6 : Nat → AlertRand := fun _ => randC6

/-- A randomness record with draws differing from `rand0` in priority,
status, severity and clock. -/
def randB : AlertRand :=
  { rand0 with priorityDraw := 10, statusDraw := 60, severityDraw := 7, tsNow := 100 }

/-- The record `generate_alert 0 randB` produces: different priority,
status, severity and timestamp than `rec0`, same identifier. -/
def recB : AlertRecord :=
  { rec0 with priority := .P2, status := .Acknowledged, severity_score := 7007, timestamp := 100 }

/-! ## Lemmas about the weighted sampler -/

theorem cumFrom_length (ws : List Int) : ∀ acc, (cumFrom acc ws).length = ws.length := by
  induction ws with
  | nil => intro acc; rfl
  | cons w ws ih => intro acc; simp [cumFrom, ih]

theorem cumFrom_append (l₁ l₂ : List Int) :
    ∀ acc, cumFrom acc (l₁ ++ l₂) = cumFrom acc l₁ ++ cumFrom (acc + l₁.sum) l₂ := by
  induction l₁ with
  | nil => intro acc; simp [cumFrom]
  | cons w l₁ ih => intro acc; simp [cumFrom, ih, add_assoc]

theorem cumWeights_getLast? (ws : List Int) (h : ws ≠ []) :
    (cumWeights ws).getLast? = some ws.sum := by
  rcases List.eq_nil_or_concat ws with rfl | ⟨L, b, rfl⟩
  · exact absurd rfl h
  · rw [List.concat_eq_append, cumWeights, cumFrom_append]
    simp [cumFrom, List.getLast?_concat]

theorem pychoices_ok {α : Type} (table : List (α × Int)) (r : Nat)
    (hne : table ≠ []) (hpos : 0 < totalWeight table) :
    ∃ x, pychoices table r = .ok x ∧ x ∈ table.map Prod.fst := by
  have hws : table.map Prod.snd ≠ [] := by simpa [List.map_eq_nil_iff] using hne
  have hlast : (cumWeights (table.map Prod.snd)).getLast? = some (totalWeight table) :=
    cumWeights_getLast? _ hws
  have hlen : 0 < table.length := List.length_pos.mpr hne
  have hidx : min ((cumWeights (table.map Prod.snd)).countP
      (fun c => decide (c ≤ (r : Int) % totalWeight table))) (table.length - 1)
      < table.length :=
    lt_of_le_of_lt (Nat.min_le_right _ _) (by omega)
  refine ⟨(table.get ⟨_, hidx⟩).1, ?_, List.mem_map_of_mem _ (List.get_mem _ _ _)⟩
  simp only [pychoices, hlast]
  rw [if_neg (by omega : ¬ totalWeight table ≤ 0), List.get?_eq_get hidx]

theorem pychoices_ok_mem {α : Type} {table : List (α × Int)} {r : Nat} {x : α}
    (h : pychoices table r = .ok x) : x ∈ table.map Prod.fst := by
  simp only [pychoices] at h
  split at h
  · exact absurd h (by simp)
  · split at h
    · exact absurd h (by simp)
    · split at h
      · next p heq =>
          injection h with h
          exact h ▸ List.mem_map_of_mem _ (List.get?_mem heq)
      · exact absurd h (by simp)

theorem pychoices_error_iff {α : Type} (table : List (α × Int)) (r : Nat) :
    pychoices table r = .error .invalidConfiguration ↔ table = [] ∨ totalWeight table ≤ 0 := by
  constructor
  · intro h
    by_contra hcon
    push_neg at hcon
    obtain ⟨hne, hpos⟩ := hcon
    obtain ⟨x, hx, -⟩ := pychoices_ok table r hne (by omega)
    rw [h] at hx
    exact Except.noConfusion hx
  · rintro (rfl | h)
    · rfl
    · by_cases hne : table = []
      · subst hne; rfl
      · have hws : table.map Prod.snd ≠ [] := by simpa [List.map_eq_nil_iff] using hne
        simp [pychoices, cumWeights_getLast? _ hws, if_pos h, totalWeight] at h ⊢
        simp [h]

/-! ## Lemmas about decimal identifiers -/

theorem digitChar_toNat {d : Nat} (h : d < 10) : (digitChar d).toNat = 48 + d := by
  interval_cases d <;> decide

theorem natDigitsRev_foldr (fuel : Nat) : ∀ n : Nat, n ≤ fuel →
    (natDigitsRev fuel n).foldr (fun c a => digitStep a c) 0 = n := by
  induction fuel with
  | zero =>
    intro n h
    interval_cases n
    rfl
  | succ fuel ih =>
    intro n h
    by_cases h0 : n = 0
    · subst h0; rfl
    · have hdiv : n / 10 < n := Nat.div_lt_self (by omega) (by omega)
      have hrec := ih (n / 10) (by omega)
      simp only [natDigitsRev, if_neg h0, List.foldr_cons, hrec]
      have hmod : (digitChar (n % 10)).toNat = 48 + n % 10 := digitChar_toNat (Nat.mod_lt n (by omega))
      simp only [digitStep, hmod]
      omega

theorem foldl_digitStep_zeros (k : Nat) (l : List Char) :
    (List.replicate k '0' ++ l).foldl digitStep 0 = l.foldl digitStep 0 := by
  induction k with
  | zero => rfl
  | succ k ih =>
    have h0 : digitStep 0 '0' = 0 := by decide
    simpa [List.replicate_succ, h0] using ih

theorem decodeId_alertId (n : Nat) : decodeId (alertId n) = n + 1 := by
  have h1 : (alertId n).data.drop 4 = (zfill 8 (pystr (n + 1))).data := rfl
  have h2 : (zfill 8 (pystr (n + 1))).data
      = List.replicate (8 - (pystr (n + 1)).data.length) '0' ++ (pystr (n + 1)).data := rfl
  have h3 : (pystr (n + 1)).data = (natDigitsRev (n + 1) (n + 1)).reverse := by
    simp [pystr]
  rw [decodeId, h1, h2, foldl_digitStep_zeros, h3, List.foldl_reverse]
  exact natDigitsRev_foldr (n + 1) (n + 1) le_rfl

theorem alertId_injective : Function.Injective alertId := by
  intro a b h
  have ha := decodeId_alertId a
  have hb := decodeId_alertId b
  rw [h, hb] at ha
  omega

/-! ## Lemmas about the sampled ranges -/

theorem randint_mem {a b : Nat} (r : Nat) (h : a ≤ b) :
    a ≤ randint a b r ∧ randint a b r ≤ b := by
  have := Nat.mod_lt r (y := b + 1 - a) (by omega)
  unfold randint
  omega

theorem uniform2dp_mem {lo hi : Nat} (r : Nat) (h : lo ≤ hi) :
    100 * lo ≤ uniform2dp lo hi r ∧ uniform2dp lo hi r ≤ 100 * hi := by
  have := Nat.mod_lt r (y := 100 * (hi - lo) + 1) (by omega)
  unfold uniform2dp
  omega

theorem generate_timestamp_spec (now : Int) (rd rh rm rs : Nat) :
    ∃ d h m s : Nat, d ≤ 30 ∧ h ≤ 23 ∧ m ≤ 59 ∧ s ≤ 59 ∧
      generate_timestamp now rd rh rm rs = now - Int.ofNat (86400 * d + 3600 * h + 60 * m + s) ∧
      now - 2678399 ≤ generate_timestamp now rd rh rm rs ∧
      generate_timestamp now rd rh rm rs ≤ now := by
  have hd := randint_mem (a := 0) (b := 30) rd (by omega)
  have hh := randint_mem (a := 0) (b := 23) rh (by omega)
  have hm := randint_mem (a := 0) (b := 59) rm (by omega)
  have hs := randint_mem (a := 0) (b := 59) rs (by omega)
  refine ⟨randint 0 30 rd, randint 0 23 rh, randint 0 59 rm, randint 0 59 rs,
    hd.2, hh.2, hm.2, hs.2, rfl, ?_, ?_⟩ <;>
    · simp only [generate_timestamp, Int.ofNat_eq_natCast]
      push_cast
      omega

/-! ## The master lemma about one `generate_alert` call -/

theorem generate_alert_isOk (index : Nat) (r : AlertRand) :
    ∃ rec, generate_alert index r = .ok rec := by
  obtain ⟨c, hc, -⟩ := pychoices_ok alert_categories r.categoryDraw (by decide) (by decide)
  obtain ⟨p, hp, -⟩ := pychoices_ok priority_distribution r.priorityDraw (by decide) (by decide)
  obtain ⟨s, hs, -⟩ := pychoices_ok (statusTableOf p) r.statusDraw
    (by cases p <;> decide) (by cases p <;> decide)
  have hs' : pychoices
      (if p = .P1 ∨ p = .P2 then
        [(Status.Open, 60), (Status.Acknowledged, 25), (Status.Resolved, 15)]
      else
        [(Status.Open, 30), (Status.Acknowledged, 30), (Status.Resolved, 40)])
      r.statusDraw = .ok s := by
    rw [← statusTableOf]; exact hs
  rcases hga : generate_alert index r with e | rec
  · simp only [generate_alert, hc, hp, hs'] at hga
    exact Except.noConfusion hga
  · exact ⟨rec, rfl⟩

theorem generate_alert_fields {index : Nat} {r : AlertRand} {rec : AlertRecord}
    (h : generate_alert index r = .ok rec) :
    rec.alert_id = alertId index ∧
    rec.timestamp = generate_timestamp r.tsNow r.tsDays r.tsHours r.tsMinutes r.tsSeconds ∧
    rec.resolution_time_minutes
      = (if rec.status = .Resolved then some (randint 5 245 r.resolutionDraw) else none) ∧
    pychoices (statusTableOf rec.priority) r.statusDraw = .ok rec.status ∧
    rec.severity_score
      = uniform2dp (severityRange rec.priority).1 (severityRange rec.priority).2 r.severityDraw ∧
    rec.impact = impactOf rec.priority := by
  simp only [generate_alert] at h
  split at h
  · exact absurd h (by simp)
  next c hc =>
  split at h
  · exact absurd h (by simp)
  next p hp =>
  split at h
  · exact absurd h (by simp)
  next s hs =>
  injection h with h
  subst h
  refine ⟨rfl, rfl, rfl, ?_, ?_, ?_⟩
  · rw [statusTableOf]
    exact hs
  · cases p <;> rfl
  · cases p <;> rfl

theorem generate_alert_ok (index : Nat) (r : AlertRand) :
    ∃ rec, generate_alert index r = .ok rec ∧
      rec.alert_id = alertId index ∧
      rec.timestamp = generate_timestamp r.tsNow r.tsDays r.tsHours r.tsMinutes r.tsSeconds ∧
      rec.resolution_time_minutes
        = (if rec.status = .Resolved then some (randint 5 245 r.resolutionDraw) else none) ∧
      pychoices (statusTableOf rec.priority) r.statusDraw = .ok rec.status ∧
      rec.severity_score
        = uniform2dp (severityRange rec.priority).1 (severityRange rec.priority).2 r.severityDraw ∧
      rec.impact = impactOf rec.priority := by
  obtain ⟨rec, h⟩ := generate_alert_isOk index r
  exact ⟨rec, h, generate_alert_fields h⟩

/-! ## Lemmas about the assembly loop -/

theorem generate_alerts_from_spec (envs : Nat → AlertRand) :
    ∀ k i : Nat, ∃ l, generate_alerts_from envs i k = .ok l ∧
      l.length = k ∧
      l.map AlertRecord.alert_id = (List.range' i k).map alertId ∧
      ∀ rec ∈ l, ∃ j r', generate_alert j r' = .ok rec ∧ r' = envs j := by
  intro k
  induction k with
  | zero => intro i; exact ⟨[], rfl, rfl, rfl, by simp⟩
  | succ k ih =>
    intro i
    obtain ⟨rec, hrec, hid, -, -, -, -, -⟩ := generate_alert_ok i (envs i)
    obtain ⟨rest, hrest, hlen, hids, hmem⟩ := ih (i + 1)
    refine ⟨rec :: rest, ?_, by simp [hlen], ?_, ?_⟩
    · simp only [generate_alerts_from, hrec, hrest]
    · rw [List.range'_succ]
      simp [hids, hid]
    · intro rec' h'
      rcases List.mem_cons.mp h' with h' | h'
      · exact ⟨i, envs i, h' ▸ hrec, rfl⟩
      · exact hmem rec' h'

theorem generate_alerts_spec (envs : Nat → AlertRand) (n : Nat) :
    ∃ l, generate_alerts envs n = .ok l ∧ l.length = n ∧
      l.map AlertRecord.alert_id = (List.range n).map alertId ∧
      ∀ rec ∈ l, ∃ j r', generate_alert j r' = .ok rec ∧ r' = envs j := by
  obtain ⟨l, h1, h2, h3, h4⟩ := generate_alerts_from_spec envs n 0
  exact ⟨l, h1, h2, by rw [List.range_eq_range']; exact h3, h4⟩

theorem generate_alerts_ok_inv {envs : Nat → AlertRand} {n : Nat} {alerts : List AlertRecord}
    (h : generate_alerts envs n = .ok alerts) :
    alerts.length = n ∧
    alerts.map AlertRecord.alert_id = (List.range n).map alertId ∧
    ∀ rec ∈ alerts, ∃ j r', generate_alert j r' = .ok rec ∧ r' = envs j := by
  obtain ⟨l, h1, h2, h3, h4⟩ := generate_alerts_spec envs n
  rw [h] at h1
  injection h1 with h1
  exact h1 ▸ ⟨h2, h3, h4⟩

/-! ## Concrete evaluations used by witnesses and counterexamples -/

theorem generate_alerts_env0_one : generate_alerts env0 1 = .ok [rec0] := rfl

theorem generate_alerts_env0_two : generate_alerts env0 2 = .ok [rec0, rec1] := rfl

theorem gd_env0_one : GenerateDataset env0 1 (.ok [rec0]) :=
  .sorted [rec0] [rec0] generate_alerts_env0_one (by simp) (List.Perm.refl _)
    (by simp [SortedDescTs])

/-! ## Inversion lemmas for the dataset relation -/

theorem generateDataset_ok_inv {envs : Nat → AlertRand} {n : Int} {out : List AlertRecord}
    (h : GenerateDataset envs n (.ok out)) :
    ∃ alerts, generate_alerts envs n.toNat = .ok alerts ∧ alerts ≠ [] ∧
      alerts.Perm out ∧ SortedDescTs out := by
  cases h with
  | sorted alerts o h hne hperm hsort => exact ⟨alerts, h, hne, hperm, hsort⟩

theorem generateDataset_mem {envs : Nat → AlertRand} {n : Int} {out : List AlertRecord}
    (h : GenerateDataset envs n (.ok out)) :
    ∀ rec ∈ out, ∃ j, generate_alert j (envs j) = .ok rec := by
  obtain ⟨alerts, ha, -, hperm, -⟩ := generateDataset_ok_inv h
  obtain ⟨-, -, hmem⟩ := generate_alerts_ok_inv ha
  intro rec hrec
  obtain ⟨j, r', hj, hr'⟩ := hmem rec (hperm.mem_iff.mpr hrec)
  exact ⟨j, hr' ▸ hj⟩

/-! ## Claims -/

/-- C1: for every integer `n`, `generate_dataset(n)` fails with
`InvalidArgument` when `n ≤ 0`, having produced no records, and for
`n = 1` it succeeds and returns exactly one record. -/
theorem generate_dataset_nonpositive_fails_one_succeeds (envs : Nat → AlertRand) :
    (∀ (n : Int) (res : Except DVError (List AlertRecord)), n ≤ 0 →
      GenerateDataset envs n res → res = .error .invalidArgument) ∧
    (∀ res : Except DVError (List AlertRecord),
      GenerateDataset envs 1 res → ∃ rec, res = .ok [rec]) ∧
    (∃ rec, GenerateDataset envs 1 (.ok [rec])) := by
  refine ⟨?_, ?_, ?_⟩
  · intro n res hn hgd
    have hz : n.toNat = 0 := by omega
    cases hgd with
    | err e h =>
        rw [hz] at h
        exact Except.noConfusion h
    | emptyFail h => rfl
    | sorted alerts o h hne hperm hsort =>
        rw [hz] at h
        injection h with h
        exact absurd h.symm hne
  · intro res hgd
    obtain ⟨l, hl, hlen, -, -⟩ := generate_alerts_spec envs 1
    obtain ⟨a, rfl⟩ : ∃ a, l = [a] := List.length_eq_one.mp hlen
    cases hgd with
    | err e h =>
        have h' : generate_alerts envs 1 = .error e := h
        rw [hl] at h'
        exact Except.noConfusion h'
    | emptyFail h =>
        have h' : generate_alerts envs 1 = .ok [] := h
        rw [hl] at h'
        injection h' with h'
        exact List.noConfusion h'
    | sorted alerts o h hne hperm hsort =>
        have h' : generate_alerts envs 1 = .ok alerts := h
        rw [hl] at h'
        injection h' with h'
        subst h'
        exact ⟨a, congrArg Except.ok (List.perm_singleton.mp hperm.symm)⟩
  · obtain ⟨l, hl, hlen, -, -⟩ := generate_alerts_spec envs 1
    obtain ⟨a, rfl⟩ : ∃ a, l = [a] := List.length_eq_one.mp hlen
    exact ⟨a, .sorted [a] [a] hl (by simp) (.refl _) (by simp [SortedDescTs])⟩

/-- C1 witness: at the concrete environment `env0`, `generate(0)` is
related only to the `InvalidArgument` failure, and `generate(1)` yields
exactly the one record `rec0`. -/
theorem generate_dataset_nonpositive_fails_one_succeeds_witness :
    ((Except.error DVError.invalidArgument : Except DVError (List AlertRecord))
      = .error .invalidArgument) ∧
    (∃ rec, (Except.ok [rec0] : Except DVError (List AlertRecord)) = .ok [rec]) ∧
    (∃ rec, GenerateDataset env0 1 (.ok [rec])) := by
  obtain ⟨h1, h2, h3⟩ := generate_dataset_nonpositive_fails_one_succeeds env0
  exact ⟨h1 0 (.error .invalidArgument) (by omega) (GenerateDataset.emptyFail rfl),
    h2 (.ok [rec0]) gd_env0_one, h3⟩

/-- C2: in every record of a `generate(n)` run with `n ≥ 1`,
`resolution_time_minutes` is present iff `status = Resolved`, and when
present it is an integer in `[5, 245]`. -/
theorem resolution_time_iff_resolved (envs : Nat → AlertRand) (n : Int)
    (out : List AlertRecord) (_hn : 1 ≤ n) (h : GenerateDataset envs n (.ok out)) :
    ∀ rec ∈ out, (rec.resolution_time_minutes.isSome ↔ rec.status = Status.Resolved) ∧
      ∀ m, rec.resolution_time_minutes = some m → 5 ≤ m ∧ m ≤ 245 := by
  intro rec hrec
  obtain ⟨j, hj⟩ := generateDataset_mem h rec hrec
  obtain ⟨-, -, hres, -, -, -⟩ := generate_alert_fields hj
  refine ⟨?_, ?_⟩
  · rw [hres]
    by_cases hst : rec.status = Status.Resolved <;> simp [hst]
  · intro m hm
    rw [hres] at hm
    by_cases hst : rec.status = Status.Resolved
    · rw [if_pos hst] at hm
      injection hm with hm
      have hb := randint_mem (a := 5) (b := 245) (envs j).resolutionDraw (by omega)
      omega
    · rw [if_neg hst] at hm
      exact Option.noConfusion hm

/-- C2 witness: the concrete record of the `generate(1)` run at `env0`. -/
theorem resolution_time_iff_resolved_witness :
    rec0.resolution_time_minutes.isSome ↔ rec0.status = Status.Resolved :=
  (resolution_time_iff_resolved env0 1 [rec0] (by omega) gd_env0_one rec0 (by simp)).1

/-- C3: every record's `severity_score` (kept in hundredths, i.e. rounded
to 2 decimal places) lies in the closed range keyed by its priority:
P1 [90,100], P2 [70,89], P3 [40,69], P4 [20,39], P5 [0,19]. -/
theorem severity_score_within_priority_range (envs : Nat → AlertRand) (n : Int)
    (out : List AlertRecord) (_hn : 1 ≤ n) (h : GenerateDataset envs n (.ok out)) :
    (severityRange .P1 = (90, 100) ∧ severityRange .P2 = (70, 89) ∧
     severityRange .P3 = (40, 69) ∧ severityRange .P4 = (20, 39) ∧
     severityRange .P5 = (0, 19)) ∧
    ∀ rec ∈ out, 100 * (severityRange rec.priority).1 ≤ rec.severity_score ∧
      rec.severity_score ≤ 100 * (severityRange rec.priority).2 := by
  refine ⟨⟨rfl, rfl, rfl, rfl, rfl⟩, ?_⟩
  intro rec hrec
  obtain ⟨j, hj⟩ := generateDataset_mem h rec hrec
  obtain ⟨-, -, -, -, hsev, -⟩ := generate_alert_fields hj
  rw [hsev]
  exact uniform2dp_mem (envs j).severityDraw (by cases rec.priority <;> decide)

/-- C3 witness: lower bound at the concrete record `rec0`. -/
theorem severity_score_within_priority_range_witness :
    100 * (severityRange rec0.priority).1 ≤ rec0.severity_score :=
  ((severity_score_within_priority_range env0 1 [rec0] (by omega) gd_env0_one).2
    rec0 (by simp)).1

/-- C4: `impact` is the pure function of `priority` mapping P1 and P2 to
High, P3 to Medium, P4 and P5 to Low; no random draw influences it. -/
theorem impact_pure_function_of_priority (envs : Nat → AlertRand) (n : Int)
    (out : List AlertRecord) (_hn : 1 ≤ n) (h : GenerateDataset envs n (.ok out)) :
    (impactOf .P1 = .High ∧ impactOf .P2 = .High ∧ impactOf .P3 = .Medium ∧
     impactOf .P4 = .Low ∧ impactOf .P5 = .Low) ∧
    ∀ rec ∈ out, rec.impact = impactOf rec.priority := by
  refine ⟨⟨rfl, rfl, rfl, rfl, rfl⟩, ?_⟩
  intro rec hrec
  obtain ⟨j, hj⟩ := generateDataset_mem h rec hrec
  exact (generate_alert_fields hj).2.2.2.2.2

/-- C4 witness: at the concrete record `rec0`. -/
theorem impact_pure_function_of_priority_witness :
    rec0.impact = impactOf rec0.priority :=
  (impact_pure_function_of_priority env0 1 [rec0] (by omega) gd_env0_one).2 rec0 (by simp)

/-- C5: the identifiers of one `generate(n)` run are, in generation
order, exactly `ALT-` followed by the decimal numerals of 1..n
zero-padded to width 8, and they are pairwise distinct — both in the
generation-order list and in the sorted output. -/
theorem alert_ids_sequential_unique (envs : Nat → AlertRand) (n : Int)
    (out : List AlertRecord) (_hn : 1 ≤ n) (h : GenerateDataset envs n (.ok out)) :
    ∃ alerts, generate_alerts envs n.toNat = .ok alerts ∧ alerts.Perm out ∧
      alerts.map AlertRecord.alert_id = (List.range n.toNat).map alertId ∧
      (alerts.map AlertRecord.alert_id).Nodup ∧
      (out.map AlertRecord.alert_id).Nodup := by
  obtain ⟨alerts, ha, -, hperm, -⟩ := generateDataset_ok_inv h
  obtain ⟨-, hids, -⟩ := generate_alerts_ok_inv ha
  have hnodup : (alerts.map AlertRecord.alert_id).Nodup := by
    rw [hids]
    exact (List.nodup_range _).map alertId_injective
  exact ⟨alerts, ha, hperm, hids, hnodup, (hperm.map _).nodup_iff.mp hnodup⟩

/-- C5 witness: distinctness of the identifiers of the concrete
single-record run. -/
theorem alert_ids_sequential_unique_witness :
    ([rec0].map AlertRecord.alert_id).Nodup := by
  obtain ⟨alerts, -, -, -, -, hnodup⟩ :=
    alert_ids_sequential_unique env0 1 [rec0] (by omega) gd_env0_one
  exact hnodup

/-- C6 counterexample: a run whose every clock read is the single instant
2678399 (so the claim's run-level reference is granted) still produces,
with the maximal draws (30 d, 23 h, 59 m, 59 s), a record whose
timestamp 0 lies strictly below `reference - 30 days = 86399`: the
offset can exceed 30 days, and the claimed window is violated. -/
theorem timestamp_window_counterexample :
    GenerateDataset envC6 1 (.ok [rec0]) ∧ envC6 0 = randC6 ∧
    randC6.tsNow = 2678399 ∧ rec0.timestamp < randC6.tsNow - 2592000 := by
  refine ⟨.sorted [rec0] [rec0] rfl (by simp) (.refl _) (by simp [SortedDescTs]),
    rfl, rfl, by decide⟩

/-- C6 amended: every record's timestamp equals the clock instant read at
that record's own generation (`datetime.now()` is re-read per record, not
once per run) minus an offset of d days, h hours, m minutes, s seconds
with d ≤ 30, h ≤ 23, m ≤ 59, s ≤ 59; hence it lies within
`[clock - 2678399 s, clock]` of that per-record clock read, where
2678399 s = 30 d 23 h 59 m 59 s. -/
theorem timestamp_per_record_window (envs : Nat → AlertRand) (n : Int)
    (out : List AlertRecord) (h : GenerateDataset envs n (.ok out)) :
    ∀ rec ∈ out, ∃ j d hh m s : Nat, generate_alert j (envs j) = .ok rec ∧
      d ≤ 30 ∧ hh ≤ 23 ∧ m ≤ 59 ∧ s ≤ 59 ∧
      rec.timestamp = (envs j).tsNow - Int.ofNat (86400 * d + 3600 * hh + 60 * m + s) ∧
      (envs j).tsNow - 2678399 ≤ rec.timestamp ∧ rec.timestamp ≤ (envs j).tsNow := by
  intro rec hrec
  obtain ⟨j, hj⟩ := generateDataset_mem h rec hrec
  obtain ⟨-, hts, -, -, -, -⟩ := generate_alert_fields hj
  obtain ⟨d, hh, m, s, hd, hhh, hm, hs, heq, hlo, hhi⟩ :=
    generate_timestamp_spec (envs j).tsNow (envs j).tsDays (envs j).tsHours
      (envs j).tsMinutes (envs j).tsSeconds
  exact ⟨j, d, hh, m, s, hj, hd, hhh, hm, hs, by rw [hts, heq],
    by rw [hts]; exact hlo, by rw [hts]; exact hhi⟩

/-- C6 amended witness: upper bound at the concrete record `rec0`. -/
theorem timestamp_per_record_window_witness :
    rec0.timestamp ≤ (env0 0).tsNow := by
  obtain ⟨j, d, hh, m, s, -, -, -, -, -, -, -, hhi⟩ :=
    timestamp_per_record_window env0 1 [rec0] gd_env0_one rec0 (by simp)
  exact hhi

/-- C7 counterexample: for two records generated with identical
timestamps, the output that reverses generation order is still a sorted
permutation — i.e. an outcome the pandas `sort_values` contract admits —
so ties are not guaranteed to keep generation order (the default
`kind='quicksort'` is not stable). -/
theorem sort_stability_counterexample :
    GenerateDataset env0 2 (.ok [rec1, rec0]) ∧ ¬ StableTiesById [rec1, rec0] := by
  constructor
  · refine .sorted [rec0, rec1] [rec1, rec0] generate_alerts_env0_two (by simp)
      (List.Perm.swap rec1 rec0 []) ?_
    refine List.Pairwise.cons ?_ (List.pairwise_singleton _ _)
    intro b hb
    rw [List.mem_singleton] at hb
    subst hb
    decide
  · intro hst
    have h1 := (List.pairwise_cons.mp hst).1 rec0 (by simp)
    have h2 := h1 rfl
    have e1 : decodeId rec1.alert_id = 2 := rfl
    have e2 : decodeId rec0.alert_id = 1 := rfl
    omega

/-- C7 amended: the returned sequence is sorted by timestamp
non-increasing and is a permutation of the `n` generated records; the
relative order of records with equal timestamps is not specified. -/
theorem dataset_sorted_desc_perm (envs : Nat → AlertRand) (n : Int)
    (out : List AlertRecord) (_hn : 1 ≤ n) (h : GenerateDataset envs n (.ok out)) :
    SortedDescTs out ∧ out.length = n.toNat ∧
    ∃ alerts, generate_alerts envs n.toNat = .ok alerts ∧ alerts.Perm out := by
  obtain ⟨alerts, ha, -, hperm, hsort⟩ := generateDataset_ok_inv h
  obtain ⟨hlen, -, -⟩ := generate_alerts_ok_inv ha
  exact ⟨hsort, by rw [← hperm.length_eq, hlen], alerts, ha, hperm⟩

/-- C7 amended witness: sortedness of the concrete single-record run. -/
theorem dataset_sorted_desc_perm_witness : SortedDescTs [rec0] :=
  (dataset_sorted_desc_perm env0 1 [rec0] (by omega) gd_env0_one).1

/-- C8 counterexample: the mapping [("a",0),("b",5)] contains a
non-positive weight, yet the sampler succeeds and returns a label — the
code (CPython `random.choices`) validates only the total, so "fails iff
the mapping is empty or contains a non-positive weight" is false. -/
theorem weighted_choice_zero_weight_counterexample :
    (("a", (0 : Int)) ∈ [("a", (0 : Int)), ("b", (5 : Int))] ∧ (0 : Int) ≤ 0) ∧
    pychoices [("a", (0 : Int)), ("b", (5 : Int))] 0 = .ok "b" := by
  exact ⟨⟨by simp, by omega⟩, rfl⟩

/-- C8 amended: the weighted sampler fails with `InvalidConfiguration`
iff the mapping is empty or its weights sum to a non-positive total; for
every mapping with a positive total it succeeds and returns one of the
mapping's labels. -/
theorem weighted_choice_fails_iff_total_nonpositive {α : Type}
    (table : List (α × Int)) (r : Nat) :
    (pychoices table r = .error .invalidConfiguration ↔
      table = [] ∨ totalWeight table ≤ 0) ∧
    (∀ x, pychoices table r = .ok x → x ∈ table.map Prod.fst) ∧
    (table ≠ [] → 0 < totalWeight table → ∃ x, pychoices table r = .ok x) := by
  refine ⟨pychoices_error_iff table r, fun x hx => pychoices_ok_mem hx, fun hne hpos => ?_⟩
  obtain ⟨x, hx, -⟩ := pychoices_ok table r hne hpos
  exact ⟨x, hx⟩

/-- C8 amended witness: a zero-weight entry does not prevent success, and
a positive-total table succeeds. -/
theorem weighted_choice_fails_iff_total_nonpositive_witness :
    ("b" ∈ ([("a", (0 : Int)), ("b", (5 : Int))].map Prod.fst)) ∧
    (∃ x, pychoices [("a", (2 : Int))] 0 = .ok x) := by
  refine ⟨(weighted_choice_fails_iff_total_nonpositive [("a", (0 : Int)), ("b", 5)] 0).2.1
      "b" rfl,
    (weighted_choice_fails_iff_total_nonpositive [("a", (2 : Int))] 0).2.2
      (by simp) (by decide)⟩

/-- C9: the status of every record is drawn from the weight table
{Open 60, Acknowledged 25, Resolved 15} when its priority is P1 or P2 and
from {Open 30, Acknowledged 30, Resolved 40} otherwise; the table is a
function of the priority alone. -/
theorem status_table_keyed_by_priority (envs : Nat → AlertRand) (n : Int)
    (out : List AlertRecord) (_hn : 1 ≤ n) (h : GenerateDataset envs n (.ok out)) :
    (∀ p : Priority, p = .P1 ∨ p = .P2 →
      statusTableOf p = [(Status.Open, 60), (Status.Acknowledged, 25), (Status.Resolved, 15)]) ∧
    (∀ p : Priority, ¬(p = .P1 ∨ p = .P2) →
      statusTableOf p = [(Status.Open, 30), (Status.Acknowledged, 30), (Status.Resolved, 40)]) ∧
    ∀ rec ∈ out, ∃ j, pychoices (statusTableOf rec.priority) (envs j).statusDraw = .ok rec.status := by
  refine ⟨?_, ?_, ?_⟩
  · intro p hp
    rw [statusTableOf, if_pos hp]
  · intro p hp
    rw [statusTableOf, if_neg hp]
  · intro rec hrec
    obtain ⟨j, hj⟩ := generateDataset_mem h rec hrec
    exact ⟨j, (generate_alert_fields hj).2.2.2.1⟩

/-- C9 witness: the P1 table of the concrete run. -/
theorem status_table_keyed_by_priority_witness :
    statusTableOf Priority.P1
      = [(Status.Open, 60), (Status.Acknowledged, 25), (Status.Resolved, 15)] :=
  (status_table_keyed_by_priority env0 1 [rec0] (by omega) gd_env0_one).1 .P1 (Or.inl rfl)

/-- C10: the identifier of the record produced for a given index is
identical across any two runs, whatever the random draws — the id is a
function of the index alone (two-run noninterference). -/
theorem alert_id_noninterference (index : Nat) (r r' : AlertRand)
    (rec rec' : AlertRecord) (h : generate_alert index r = .ok rec)
    (h' : generate_alert index r' = .ok rec') :
    rec.alert_id = rec'.alert_id := by
  obtain ⟨hid, -, -, -, -, -⟩ := generate_alert_fields h
  obtain ⟨hid', -, -, -, -, -⟩ := generate_alert_fields h'
  rw [hid, hid']

/-- C10 witness: two concrete runs with different draws (different
priority, status, severity and clock) produce records with the same
identifier at index 0. -/
theorem alert_id_noninterference_witness : rec0.alert_id = recB.alert_id :=
  alert_id_noninterference 0 rand0 randB rec0 recB rfl rfl

end DataVerse
